import Mathlib

/-!
# Verification of `hyperglass/command/execute.py`

A shallow embedding of the execution core of hyperglass: the REST executors
(`Rest.frr`, `Rest.bird`), the interactive executors (`Netmiko.direct`,
`Netmiko.proxied`), the output normalizer (`Execute.parse`) and the
orchestrator (`Execute.response`).  External effects (the HTTP network, the
netmiko channel, the configuration tables, the validator and command-builder
collaborators) are supplied as explicit oracle/environment values; every
externally visible action (network call, channel write/read, redispatch) is
recorded in an action log, and Python exceptions are modelled with `Except`.
-/

namespace Hyperglass

/-- The transport-layer exception types of the `http3` library that the two
REST executors enumerate in their `except` clause (lines 74–89 / 124–139). -/
inductive Http3Exception where
  | connectTimeout
  | cookieConflict
  | decodingError
  | invalidURL
  | poolTimeout
  | protocolError
  | readTimeout
  | redirectBodyUnavailable
  | redirectLoop
  | responseClosed
  | responseNotRead
  | streamConsumed
  | timeout
  | tooManyRedirects
  | writeTimeout
  deriving DecidableEq, Repr

/-- The netmiko exception types enumerated by the `except` clauses of
`Netmiko.direct` and `Netmiko.proxied` (lines 177–182 / 233–238). -/
inductive NetmikoException where
  | authenticationException
  | timeoutException
  | authError
  | timeoutError
  deriving DecidableEq, Repr

/-- A Python exception as it reaches a caller of the embedded code:
either one of the enumerated library exceptions, or an `AttributeError`
from a failed `getattr` / attribute access (carrying the object and the
attribute name), or an `IndexError` from list indexing. -/
inductive PyError where
  | http3Exc (e : Http3Exception)
  | netmikoExc (e : NetmikoException)
  | attributeError (obj attr : String)
  | indexError
  deriving DecidableEq, Repr

/-- Modelled from the spec: `hyperglass.constants.code` is not under `src/`.
The spec describes a two-valued status enum {valid, invalid}; the REST path
additionally forwards the raw numeric HTTP status code as-is. -/
inductive StatusCode where
  | valid
  | invalid
  | http (n : Nat)
  deriving DecidableEq, Repr

/-- A completed HTTP response: body text and numeric status code. -/
structure HttpResponse where
  text : String
  status_code : Nat
  deriving DecidableEq, Repr

/-- What the network does when the single POST of a REST executor is
actually awaited: a completed response, or one of the enumerated
transport-layer exceptions. -/
inductive HttpResult where
  | success (resp : HttpResponse)
  | failure (e : Http3Exception)
  deriving DecidableEq, Repr

/-- A Python value bound to `frr_response` / `bird_response`: either the
un-awaited coroutine object produced by calling the `async`
`http3.AsyncClient.post` without `await`, or a completed response. -/
inductive PyValue where
  | coroutine
  | response (resp : HttpResponse)
  deriving DecidableEq, Repr

/-- `http_client.post(...)`: calling an `async def` performs no I/O and
returns a coroutine object. -/
def httpPost : PyValue := PyValue.coroutine

/-- `await v`: awaiting the coroutine runs the POST, yielding the network's
outcome; awaiting raises the transport exception the call produced, if any. -/
def pyAwait (net : HttpResult) : PyValue → Except PyError PyValue
  | PyValue.coroutine =>
      match net with
      | HttpResult.success r => Except.ok (PyValue.response r)
      | HttpResult.failure e => Except.error (PyError.http3Exc e)
  | v => Except.ok v

/-- `v.text`: present on a completed response; on a coroutine object the
attribute access raises `AttributeError`. -/
def pyText : PyValue → Except PyError String
  | PyValue.response r => Except.ok r.text
  | PyValue.coroutine => Except.error (PyError.attributeError "coroutine" "text")

/-- `v.status_code`: present on a completed response; on a coroutine object
the attribute access raises `AttributeError`. -/
def pyStatusCode : PyValue → Except PyError Nat
  | PyValue.response r => Except.ok r.status_code
  | PyValue.coroutine =>
      Except.error (PyError.attributeError "coroutine" "status_code")

/-- The `except (http3.exceptions.…)` clause shared by both REST executors:
an enumerated transport exception is converted into
`(params.messages.general, code.invalid)`; any other exception propagates. -/
def restExceptClause (generalMsg : String)
    (body : Except PyError (String × StatusCode)) :
    Except PyError (String × StatusCode) :=
  match body with
  | Except.ok r => Except.ok r
  | Except.error (PyError.http3Exc _) =>
      Except.ok (generalMsg, StatusCode.invalid)
  | Except.error e => Except.error e

namespace Rest

/-- `Rest.frr` (lines 48–96): awaits the POST, then reads `.text` and
`.status_code` from the completed response; the enumerated transport
exceptions are caught and converted. -/
def frr (generalMsg : String) (net : HttpResult) :
    Except PyError (String × StatusCode) :=
  restExceptClause generalMsg (do
    let frr_response ← pyAwait net httpPost
    let response ← pyText frr_response
    let status ← pyStatusCode frr_response
    pure (response, StatusCode.http status))

/-- `Rest.bird` (lines 98–144): identical to `frr` except that the POST is
*not* awaited (line 116), so `bird_response` is the coroutine object and the
`.text` access raises `AttributeError`, which the `except` clause does not
catch.  Its result does not depend on the network outcome at all. -/
def bird (generalMsg : String) (_net : HttpResult) :
    Except PyError (String × StatusCode) :=
  restExceptClause generalMsg (do
    let bird_response := httpPost
    let response ← pyText bird_response
    let status ← pyStatusCode bird_response
    pure (response, StatusCode.http status))

end Rest

/-- Python list indexing `l[i]` for a non-negative index: out of range
raises `IndexError`. -/
def pyIndex (l : List String) (i : Nat) : Except PyError String :=
  match l.get? i with
  | some s => Except.ok s
  | none => Except.error PyError.indexError

/-- Python's `s.split(sep)` over character lists, for a non-empty separator:
scan left to right; at a position where the separator is a prefix, cut a
piece and continue past it (non-overlapping, leftmost-first).  `fuel` bounds
the recursion; every step consumes at least one character, so
`s.length + 1` fuel always suffices. -/
def pySplitGo (sep : List Char) (fuel : Nat) (acc s : List Char) :
    List (List Char) :=
  match fuel with
  | 0 => [acc.reverse ++ s]
  | fuel + 1 =>
      if sep.isPrefixOf s then
        acc.reverse :: pySplitGo sep fuel [] (s.drop sep.length)
      else
        match s with
        | [] => [acc.reverse]
        | c :: rest => pySplitGo sep fuel (c :: acc) rest

/-- Python's `s.split(sep)` on strings.  The execution core only splits on
the non-empty literal delimiters of the table (Python raises `ValueError`
on an empty separator; that case is never reached here). -/
def pySplit (s sep : String) : List String :=
  if sep = "" then [s]
  else
    (pySplitGo sep.toList (s.toList.length + 1) [] s.toList).map
      (fun cs => String.mk cs)

/-- `Execute.parse` (lines 259–282), with `self.input_type` passed
explicitly.  Python's `output.split(delimiter)` is `pySplit`;
`split(...)[1]` and `split(...)[2]` are fallible list indexing. -/
def Execute.parse (input_type output nos : String) :
    Except PyError String :=
  if input_type = "bgp_community" ∨ input_type = "bgp_aspath" then
    if nos = "cisco_ios" then
      let delimiter := "For address family: "
      do
        let parsed_ipv4 ← pyIndex (pySplit output delimiter) 1
        let parsed_ipv6 ← pyIndex (pySplit output delimiter) 2
        pure (delimiter ++ parsed_ipv4 ++ delimiter ++ parsed_ipv6)
    else if nos = "cisco_xr" then
      let delimiter := "Address Family: "
      do
        let parsed_ipv4 ← pyIndex (pySplit output delimiter) 1
        let parsed_ipv6 ← pyIndex (pySplit output delimiter) 2
        pure (delimiter ++ parsed_ipv4 ++ delimiter ++ parsed_ipv6)
    else
      pure output
  else
    pure output

/-- Python's `pat in s` for a non-empty pattern string: the split on the
pattern has more than one piece exactly when the pattern occurs in `s`. -/
def pyIn (pat s : String) : Bool := (pySplit s pat).length ≠ 1

/-- An externally visible action of the execution core, in the order
performed: collaborator calls, network I/O and channel operations. -/
inductive Action where
  | validate
  | restInit
  | httpPostAwait
  | netmikoInit
  | connectDirect
  | connectProxy
  | writeChannel (s : String)
  | sleep (seconds : Nat)
  | readChannel
  | redispatchTo (device_type : String)
  | sendCommand (cmd : String)
  | parseOutput
  deriving DecidableEq, Repr

/-- The proxy (bastion) configuration a device's `proxy` name resolves to:
the fields of `proxies.<name>` that `Netmiko.proxied` reads (lines 193–202). -/
structure ProxyConfig where
  address : String
  username : String
  password : String
  nos : String
  ssh_command : String
  deriving DecidableEq, Repr

/-- Python `template.format(**nm_host)` for the jump-command template,
substituting the four placeholders the `nm_host` mapping provides. -/
def pyFormat (template host device_type username password : String) : String :=
  ((((template.replace "{host}" host).replace
      "{device_type}" device_type).replace
      "{username}" username).replace
      "{password}" password)

/-- Outcomes of the channel/session operations of `Netmiko.direct`:
one per operation site, each able to raise a netmiko exception. -/
structure DirectEnv where
  connectOutcome : Except NetmikoException Unit
  sendOutcome : Except NetmikoException String
  deriving Repr

/-- Outcomes of the channel/session operations of `Netmiko.proxied`:
one per operation site (each site runs at most once), each able to raise a
netmiko exception, plus the result of the `getattr(proxies, …)` lookup. -/
structure ProxiedEnv where
  proxyLookup : Option ProxyConfig
  connectOutcome : Except NetmikoException Unit
  jumpWriteOutcome : Except NetmikoException Unit
  firstRead : Except NetmikoException String
  writeYesOutcome : Except NetmikoException Unit
  writePwdAfterYesOutcome : Except NetmikoException Unit
  writePwdPromptOutcome : Except NetmikoException Unit
  secondRead : Except NetmikoException String
  redispatchOutcome : Except NetmikoException Unit
  sendOutcome : Except NetmikoException String
  deriving Repr

namespace Netmiko

/-- `Netmiko.direct` (lines 165–186): `ConnectHandler` then `send_command`,
both inside the `try`; the four netmiko exception types are caught and
converted to `(params.messages.general, code.invalid)`.  Returns the action
log alongside the result; `direct` never raises. -/
def direct (generalMsg command : String) (env : DirectEnv) :
    List Action × (String × StatusCode) :=
  match env.connectOutcome with
  | Except.error _ =>
      ([Action.connectDirect], (generalMsg, StatusCode.invalid))
  | Except.ok _ =>
      match env.sendOutcome with
      | Except.error _ =>
          ([Action.connectDirect, Action.sendCommand command],
            (generalMsg, StatusCode.invalid))
      | Except.ok response =>
          ([Action.connectDirect, Action.sendCommand command],
            (response, StatusCode.valid))

/-- Lines 214–223 of `Netmiko.proxied`: classify the accumulated proxy
channel text.  Host-key confirmation prompt → write `"yes\n"` then the
password; else password prompt (`"assword"`) → write the password then read
and append further channel output; else no write.  Returns the channel
actions performed, and the final accumulated `proxy_output` or the netmiko
exception raised. -/
def classifyProxyOutput (password proxy_output : String) (env : ProxiedEnv) :
    List Action × Except NetmikoException String :=
  if pyIn "Are you sure you want to continue connecting" proxy_output then
    match env.writeYesOutcome with
    | Except.error e =>
        ([Action.writeChannel ("yes" ++ "\n")], Except.error e)
    | Except.ok _ =>
        match env.writePwdAfterYesOutcome with
        | Except.error e =>
            ([Action.writeChannel ("yes" ++ "\n"),
              Action.writeChannel (password ++ "\n")], Except.error e)
        | Except.ok _ =>
            ([Action.writeChannel ("yes" ++ "\n"),
              Action.writeChannel (password ++ "\n")],
              Except.ok proxy_output)
  else if pyIn "assword" proxy_output then
    match env.writePwdPromptOutcome with
    | Except.error e =>
        ([Action.writeChannel (password ++ "\n")], Except.error e)
    | Except.ok _ =>
        match env.secondRead with
        | Except.error e =>
            ([Action.writeChannel (password ++ "\n"), Action.readChannel],
              Except.error e)
        | Except.ok more =>
            ([Action.writeChannel (password ++ "\n"), Action.readChannel],
              Except.ok (proxy_output ++ more))
  else
    ([], Except.ok proxy_output)

/-- The `try` block of `Netmiko.proxied` (lines 213–231): classification,
then `redispatch` to the target's device type, then `send_command`. -/
def proxiedTry (password device_type command proxy_output : String)
    (env : ProxiedEnv) :
    List Action × Except NetmikoException (String × StatusCode) :=
  let c := classifyProxyOutput password proxy_output env
  match c.2 with
  | Except.error e => (c.1, Except.error e)
  | Except.ok _ =>
      match env.redispatchOutcome with
      | Except.error e =>
          (c.1 ++ [Action.redispatchTo device_type], Except.error e)
      | Except.ok _ =>
          match env.sendOutcome with
          | Except.error e =>
              (c.1 ++ [Action.redispatchTo device_type,
                Action.sendCommand command], Except.error e)
          | Except.ok response =>
              (c.1 ++ [Action.redispatchTo device_type,
                Action.sendCommand command],
                Except.ok (response, StatusCode.valid))

/-- `Netmiko.proxied` (lines 188–243).  The proxy lookup, `ConnectHandler`
to the bastion, the jump-command write, the settle sleep and the first
channel read all happen *before* the `try` block, so an exception raised by
any of them propagates; inside the `try`, the four netmiko exception types
are caught and converted to `(params.messages.general, code.invalid)`.
`host`, `device_type`, `username`, `password` are the target-device fields
of `self.nm_host`; `proxyName` is `self.device.proxy`. -/
def proxied (generalMsg proxyName host device_type username password
    command : String) (env : ProxiedEnv) :
    List Action × Except PyError (String × StatusCode) :=
  match env.proxyLookup with
  | none => ([], Except.error (PyError.attributeError "proxies" proxyName))
  | some device_proxy =>
      match env.connectOutcome with
      | Except.error e =>
          ([Action.connectProxy], Except.error (PyError.netmikoExc e))
      | Except.ok _ =>
          let nm_ssh_command :=
            pyFormat device_proxy.ssh_command host device_type username
              password ++ "\n"
          match env.jumpWriteOutcome with
          | Except.error e =>
              ([Action.connectProxy, Action.writeChannel nm_ssh_command],
                Except.error (PyError.netmikoExc e))
          | Except.ok _ =>
              match env.firstRead with
              | Except.error e =>
                  ([Action.connectProxy, Action.writeChannel nm_ssh_command,
                    Action.sleep 1, Action.readChannel],
                    Except.error (PyError.netmikoExc e))
              | Except.ok proxy_output =>
                  let pre := [Action.connectProxy,
                    Action.writeChannel nm_ssh_command, Action.sleep 1,
                    Action.readChannel]
                  let tr := proxiedTry password device_type command
                    proxy_output env
                  match tr.2 with
                  | Except.ok result => (pre ++ tr.1, Except.ok result)
                  | Except.error _ =>
                      (pre ++ tr.1,
                        Except.ok (generalMsg, StatusCode.invalid))

end Netmiko

/-- A device credential: `credentials.<name>`, with `username` and the
secret already unwrapped (`password.get_secret_value()`). -/
structure Credential where
  username : String
  password : String
  deriving DecidableEq, Repr

/-- The fields of a device configuration (`devices.<location>`) that the
execution core reads.  `proxy` is the bastion name, `none` when the device
is reached directly (Python falsiness of `device_config.proxy`). -/
structure DeviceConfig where
  address : String
  port : Nat
  nos : String
  credential : String
  proxy : Option String
  location : String
  deriving DecidableEq, Repr

/-- Modelled from the spec: `hyperglass.constants.Supported` is not under
`src/`.  The spec describes a REST-capable set of NOS identifiers (the
device-side query agents, reached over HTTP) and an interactive
(scrape)-capable set (reached over netmiko). -/
def Supported.rest_list : List String := ["frr", "bird"]

/-- Modelled from the spec: the interactive(scrape)-capable NOS set;
`cisco_ios` and `cisco_xr` are the two `Execute.parse` names, the rest are
further netmiko device types. -/
def Supported.scrape_list : List String :=
  ["cisco_ios", "cisco_xr", "juniper"]

/-- `Supported.is_rest(nos)`. -/
def Supported.is_rest (nos : String) : Bool := nos ∈ Supported.rest_list

/-- `Supported.is_scrape(nos)`. -/
def Supported.is_scrape (nos : String) : Bool := nos ∈ Supported.scrape_list

/-- The external validator's result:
`validity, msg, status = getattr(Validate(device_config), input_type)(target)`. -/
structure ValidateResult where
  validity : Bool
  msg : String
  status : StatusCode
  deriving DecidableEq, Repr

/-- The environment `Execute.response` runs in: the configuration tables
(`devices`, `credentials` as partial maps, missing name = `AttributeError`),
whether the validator / command-builder collaborators have a handler for the
query type (`getattr` on `Validate(…)` / `Construct(…)`), the collaborators'
results, and the oracle environments of the inner executors. -/
structure ResponseEnv where
  devices : String → Option DeviceConfig
  credentials : String → Option Credential
  validateHasHandler : Bool
  validateResult : ValidateResult
  constructHasHandler : Bool
  constructQuery : String
  constructLocation : String
  constructNos : String
  constructCommand : String
  net : HttpResult
  directEnv : DirectEnv
  proxiedEnv : ProxiedEnv
  generalMsg : String

/-- `Rest.__init__` (lines 38–46): resolve the credential by `getattr` on
the credentials table, then the query-type handler by `getattr` on the
command builder; either lookup failing raises `AttributeError`. -/
def Rest.init (input_type : String) (dc : DeviceConfig) (env : ResponseEnv) :
    Except PyError Credential :=
  match env.credentials dc.credential with
  | none => Except.error (PyError.attributeError "credentials" dc.credential)
  | some cred =>
      if env.constructHasHandler then Except.ok cred
      else Except.error (PyError.attributeError "Construct" input_type)

/-- `Netmiko.__init__` (lines 150–163): the same credential and
command-builder lookups; on success the builder yields
`(location, nos, command)` and `nm_host` is assembled from them. -/
def Netmiko.init (input_type : String) (dc : DeviceConfig)
    (env : ResponseEnv) : Except PyError Credential :=
  match env.credentials dc.credential with
  | none => Except.error (PyError.attributeError "credentials" dc.credential)
  | some cred =>
      if env.constructHasHandler then Except.ok cred
      else Except.error (PyError.attributeError "Construct" input_type)

/-- `Execute.response` (lines 284–325), with the action log made explicit.
Resolves the device by `getattr`, runs the validator, short-circuits on an
invalid query, then dispatches on `Supported.is_rest` / `Supported.is_scrape`
membership of the device's NOS; the fall-through for a NOS in neither set
returns `params.messages.general` with the status left from the validity
check. -/
def Execute.response (input_location input_type : String)
    (env : ResponseEnv) : List Action × Except PyError (String × StatusCode) :=
  match env.devices input_location with
  | none =>
      ([], Except.error (PyError.attributeError "devices" input_location))
  | some device_config =>
      if env.validateHasHandler = false then
        ([], Except.error (PyError.attributeError "Validate" input_type))
      else
        let v := env.validateResult
        if v.validity = false then
          ([Action.validate], Except.ok (v.msg, v.status))
        else
          if Supported.is_rest device_config.nos then
            match Rest.init input_type device_config env with
            | Except.error e => ([Action.validate], Except.error e)
            | Except.ok _ =>
                let call : List Action × Except PyError (String × StatusCode) :=
                  if device_config.nos = "frr" then
                    ([Action.httpPostAwait], Rest.frr env.generalMsg env.net)
                  else
                    ([], Rest.bird env.generalMsg env.net)
                match call.2 with
                | Except.error e =>
                    ([Action.validate, Action.restInit] ++ call.1,
                      Except.error e)
                | Except.ok (raw_output, status) =>
                    match Execute.parse input_type raw_output
                        device_config.nos with
                    | Except.error e =>
                        ([Action.validate, Action.restInit] ++ call.1 ++
                          [Action.parseOutput], Except.error e)
                    | Except.ok output =>
                        ([Action.validate, Action.restInit] ++ call.1 ++
                          [Action.parseOutput], Except.ok (output, status))
          else if Supported.is_scrape device_config.nos then
            match Netmiko.init input_type device_config env with
            | Except.error e => ([Action.validate], Except.error e)
            | Except.ok cred =>
                let run : List Action × Except PyError (String × StatusCode) :=
                  if device_config.proxy.isSome then
                    Netmiko.proxied env.generalMsg
                      (device_config.proxy.getD "") env.constructLocation
                      env.constructNos cred.username cred.password
                      env.constructCommand env.proxiedEnv
                  else
                    let d := Netmiko.direct env.generalMsg
                      env.constructCommand env.directEnv
                    (d.1, Except.ok d.2)
                match run.2 with
                | Except.error e =>
                    ([Action.validate, Action.netmikoInit] ++ run.1,
                      Except.error e)
                | Except.ok (raw_output, status) =>
                    match Execute.parse input_type raw_output
                        device_config.nos with
                    | Except.error e =>
                        ([Action.validate, Action.netmikoInit] ++ run.1 ++
                          [Action.parseOutput], Except.error e)
                    | Except.ok output =>
                        ([Action.validate, Action.netmikoInit] ++ run.1 ++
                          [Action.parseOutput], Except.ok (output, status))
          else
            ([Action.validate], Except.ok (env.generalMsg, v.status))

/-! ## Theorems for the claims -/

/-- C1: for every enumerated transport-layer exception, `Rest.frr` returns
`(general message, invalid status)` and propagates nothing — but `Rest.bird`
never awaits the POST, so the transport exception is never raised and the
caller instead gets an uncaught `AttributeError` from reading `.text` off
the coroutine object; `bird` does not return the converted pair. -/
theorem c1_frr_converts_bird_raises :
    (∀ e : Http3Exception,
      Rest.frr "general" (HttpResult.failure e)
        = Except.ok ("general", StatusCode.invalid)) ∧
    (∀ e : Http3Exception,
      Rest.bird "general" (HttpResult.failure e)
        = Except.error (PyError.attributeError "coroutine" "text")) :=
  ⟨fun _ => rfl, fun _ => rfl⟩

/-- C4: on an identical completed HTTP response, `Rest.frr` (which awaits
the POST) returns the body and forwarded status, while `Rest.bird` (which
does not await it) raises `AttributeError`: the two variants do not return
the same observable result. -/
theorem c4_variants_differ_on_completed_response :
    Rest.frr "general" (HttpResult.success ⟨"ok", 200⟩)
      = Except.ok ("ok", StatusCode.http 200) ∧
    Rest.bird "general" (HttpResult.success ⟨"ok", 200⟩)
      = Except.error (PyError.attributeError "coroutine" "text") :=
  ⟨rfl, rfl⟩

/-- C2: when the delimiter yields fewer than two sections (zero occurrences,
or one occurrence giving a single section), `Execute.parse` raises an
out-of-range `IndexError` rather than any defined `MalformedOutput`
condition. -/
theorem c2_parse_raises_index_error :
    Execute.parse "bgp_community" "" "cisco_ios"
      = Except.error PyError.indexError ∧
    Execute.parse "bgp_community" "preFor address family: only" "cisco_ios"
      = Except.error PyError.indexError :=
  ⟨rfl, rfl⟩

/-- C8: for `bgp_community` on `cisco_ios`, when the delimiter
`"For address family: "` occurs three times (the split yields a preamble and
three sections), `Execute.parse` returns
`delimiter ++ section₁ ++ delimiter ++ section₂`, dropping the preamble and
the third section. -/
theorem c8_parse_keeps_first_two_sections (output p s1 s2 s3 : String)
    (h : pySplit output "For address family: " = [p, s1, s2, s3]) :
    Execute.parse "bgp_community" output "cisco_ios"
      = Except.ok ("For address family: " ++ s1 ++
          "For address family: " ++ s2) := by
  unfold Execute.parse
  rw [if_pos (Or.inl rfl), if_pos rfl]
  simp [pyIndex, h]
  rfl

/-- C8 witness: a concrete text with three delimiter occurrences. -/
theorem c8_witness :
    Execute.parse "bgp_community"
      "preFor address family: AFor address family: BFor address family: C"
      "cisco_ios"
      = Except.ok ("For address family: " ++ "A" ++
          "For address family: " ++ "B") :=
  c8_parse_keeps_first_two_sections
    "preFor address family: AFor address family: BFor address family: C"
    "pre" "A" "B" "C" rfl

/-- C9: `Execute.parse` is the identity (no exception, output unchanged)
whenever the query type is outside {bgp_community, bgp_aspath}, and likewise
whenever the NOS is outside the delimiter table {cisco_ios, cisco_xr}. -/
theorem c9_parse_identity (input_type output nos : String)
    (h : ¬(input_type = "bgp_community" ∨ input_type = "bgp_aspath")
       ∨ ¬(nos = "cisco_ios" ∨ nos = "cisco_xr")) :
    Execute.parse input_type output nos = Except.ok output := by
  unfold Execute.parse
  by_cases ht : input_type = "bgp_community" ∨ input_type = "bgp_aspath"
  · have hn : ¬(nos = "cisco_ios" ∨ nos = "cisco_xr") :=
      h.resolve_left (not_not_intro ht)
    push_neg at hn
    rw [if_pos ht, if_neg hn.1, if_neg hn.2]
    rfl
  · rw [if_neg ht]
    rfl

/-- C9 witness: an inapplicable query type over a tabled NOS, evaluated. -/
theorem c9_witness :
    Execute.parse "bgp_route" "For address family: raw" "cisco_ios"
      = Except.ok "For address family: raw" :=
  c9_parse_identity "bgp_route" "For address family: raw" "cisco_ios"
    (Or.inl (by decide))

/-- C7: when the channel operations succeed, the accumulated proxy text is
classified in fixed priority order: host-key confirmation prompt → write
`"yes\n"` then the secret (two consecutive writes, no read between them);
else `"assword"` → exactly one write of the secret and one further read
whose result is appended to the accumulated output; else no write at all. -/
theorem c7_classification_priority (password po more : String)
    (env : ProxiedEnv)
    (h1 : env.writeYesOutcome = Except.ok ())
    (h2 : env.writePwdAfterYesOutcome = Except.ok ())
    (h3 : env.writePwdPromptOutcome = Except.ok ())
    (h4 : env.secondRead = Except.ok more) :
    (pyIn "Are you sure you want to continue connecting" po = true →
      Netmiko.classifyProxyOutput password po env
        = ([Action.writeChannel ("yes" ++ "\n"),
            Action.writeChannel (password ++ "\n")],
           Except.ok po)) ∧
    (pyIn "Are you sure you want to continue connecting" po = false →
      pyIn "assword" po = true →
      Netmiko.classifyProxyOutput password po env
        = ([Action.writeChannel (password ++ "\n"), Action.readChannel],
           Except.ok (po ++ more))) ∧
    (pyIn "Are you sure you want to continue connecting" po = false →
      pyIn "assword" po = false →
      Netmiko.classifyProxyOutput password po env
        = ([], Except.ok po)) := by
  refine ⟨fun hk => ?_, fun hk ha => ?_, fun hk ha => ?_⟩
  · simp [Netmiko.classifyProxyOutput, hk, h1, h2]
  · simp [Netmiko.classifyProxyOutput, hk, ha, h3, h4]
  · simp [Netmiko.classifyProxyOutput, hk, ha]

/-- C7 witness: a password prompt without the host-key prompt, evaluated. -/
theorem c7_witness :
    Netmiko.classifyProxyOutput "pw" "Password: "
      ⟨none, Except.ok (), Except.ok (), Except.ok "", Except.ok (),
        Except.ok (), Except.ok (), Except.ok "more", Except.ok (),
        Except.ok "out"⟩
      = ([Action.writeChannel ("pw" ++ "\n"), Action.readChannel],
         Except.ok ("Password: " ++ "more")) :=
  (c7_classification_priority "pw" "Password: " "more"
    ⟨none, Except.ok (), Except.ok (), Except.ok "", Except.ok (),
      Except.ok (), Except.ok (), Except.ok "more", Except.ok (),
      Except.ok "out"⟩ rfl rfl rfl rfl).2.1 rfl rfl

/-- C3 counterexample: a timeout exception raised by the initial bastion
`ConnectHandler` call — which the claim says never propagates — escapes
`Netmiko.proxied` uncaught, because that call is outside the `try` block. -/
theorem c3_counterexample :
    Netmiko.proxied "general" "px1" "10.0.0.1" "cisco_ios" "user" "pw"
      "show route"
      ⟨some ⟨"192.0.2.1", "puser", "ppw", "linux", "ssh {username}@{host}"⟩,
        Except.error NetmikoException.timeoutException, Except.ok (),
        Except.ok "", Except.ok (), Except.ok (), Except.ok (),
        Except.ok "", Except.ok (), Except.ok "out"⟩
      = ([Action.connectProxy],
         Except.error (PyError.netmikoExc
           NetmikoException.timeoutException)) := rfl

/-- C3 amended: once the bastion session is open and the jump command and
settle read have succeeded, any netmiko authentication or timeout exception
raised inside the `try` block — prompt classification (step 4), redispatch,
or the final command submission (step 6) — is caught and converted into
`(general message, invalid status)`; an exception from the initial bastion
`ConnectHandler` call (step 1) instead propagates to the caller. -/
theorem c3_try_block_exceptions_caught
    (g pn host dt u pw cmd po : String) (env : ProxiedEnv)
    (pc : ProxyConfig) (e : NetmikoException)
    (hp : env.proxyLookup = some pc)
    (hc : env.connectOutcome = Except.ok ())
    (hj : env.jumpWriteOutcome = Except.ok ())
    (hr : env.firstRead = Except.ok po)
    (hfail : (Netmiko.proxiedTry pw dt cmd po env).2 = Except.error e) :
    (Netmiko.proxied g pn host dt u pw cmd env).2
      = Except.ok (g, StatusCode.invalid) := by
  simp [Netmiko.proxied, hp, hc, hj, hr, hfail]

/-- C3 witness: bastion login succeeds, the target rejects the credential at
the final command; `proxied` returns the converted pair. -/
theorem c3_witness :
    (Netmiko.proxied "general" "px1" "10.0.0.1" "cisco_ios" "user" "pw"
      "show route"
      ⟨some ⟨"192.0.2.1", "puser", "ppw", "linux", "ssh {username}@{host}"⟩,
        Except.ok (), Except.ok (), Except.ok "Password: ", Except.ok (),
        Except.ok (), Except.ok (), Except.ok "ok", Except.ok (),
        Except.error NetmikoException.authenticationException⟩).2
      = Except.ok ("general", StatusCode.invalid) :=
  c3_try_block_exceptions_caught "general" "px1" "10.0.0.1" "cisco_ios"
    "user" "pw" "show route" "Password: "
    ⟨some ⟨"192.0.2.1", "puser", "ppw", "linux", "ssh {username}@{host}"⟩,
      Except.ok (), Except.ok (), Except.ok "Password: ", Except.ok (),
      Except.ok (), Except.ok (), Except.ok "ok", Except.ok (),
      Except.error NetmikoException.authenticationException⟩
    ⟨"192.0.2.1", "puser", "ppw", "linux", "ssh {username}@{host}"⟩
    NetmikoException.authenticationException rfl rfl rfl rfl rfl

/-- C6: when the validator rejects the query, `Execute.response` returns
exactly the validator's (message, status) pair, and the action log holds the
validation call alone: no executor is constructed or invoked, no HTTP or
channel action occurs, and the normalizer is not applied. -/
theorem c6_validator_short_circuit (loc ty : String) (env : ResponseEnv)
    (dc : DeviceConfig) (hdc : env.devices loc = some dc)
    (hv : env.validateHasHandler = true)
    (hval : env.validateResult.validity = false) :
    Execute.response loc ty env
      = ([Action.validate],
         Except.ok (env.validateResult.msg, env.validateResult.status)) := by
  simp [Execute.response, hdc, hv, hval]

/-- C6 witness: a rejected query against a fully working environment. -/
theorem c6_witness :
    Execute.response "r1" "bgp_community"
      ⟨fun _ => some ⟨"10.0.0.1", 8080, "frr", "cred1", none, "r1"⟩,
        fun _ => some ⟨"u", "secret"⟩, true,
        ⟨false, "target is blacklisted", StatusCode.invalid⟩, true,
        "query", "10.0.0.1", "frr", "show", HttpResult.success ⟨"ok", 200⟩,
        ⟨Except.ok (), Except.ok "out"⟩,
        ⟨none, Except.ok (), Except.ok (), Except.ok "", Except.ok (),
          Except.ok (), Except.ok (), Except.ok "", Except.ok (),
          Except.ok "out"⟩, "general"⟩
      = ([Action.validate],
         Except.ok ("target is blacklisted", StatusCode.invalid)) :=
  c6_validator_short_circuit "r1" "bgp_community" _
    ⟨"10.0.0.1", 8080, "frr", "cred1", none, "r1"⟩ rfl rfl rfl

/-- C5 counterexample: a device whose NOS is in neither capability set, with
a validator that approves the query with a valid status: `Execute.response`
returns the generic placeholder message together with that valid status — it
reports no configuration error and silently falls through. -/
theorem c5_counterexample :
    Execute.response "r1" "bgp_route"
      ⟨fun _ => some ⟨"10.0.0.1", 8080, "unknown_nos", "cred1", none, "r1"⟩,
        fun _ => some ⟨"u", "secret"⟩, true,
        ⟨true, "ok", StatusCode.valid⟩, true,
        "query", "10.0.0.1", "unknown_nos", "show",
        HttpResult.success ⟨"ok", 200⟩,
        ⟨Except.ok (), Except.ok "out"⟩,
        ⟨none, Except.ok (), Except.ok (), Except.ok "", Except.ok (),
          Except.ok (), Except.ok (), Except.ok "", Except.ok (),
          Except.ok "out"⟩, "general"⟩
      = ([Action.validate], Except.ok ("general", StatusCode.valid)) := rfl

/-- C5 amended: for a validated request whose device NOS is in neither the
REST-capable nor the scrape-capable set, `Execute.response` does not report
a configuration error: it falls through and returns the generic placeholder
message paired with the status left over from the validity check — in
particular a valid status with the placeholder message. -/
theorem c5_unknown_nos_fallthrough (loc ty : String) (env : ResponseEnv)
    (dc : DeviceConfig) (hdc : env.devices loc = some dc)
    (hv : env.validateHasHandler = true)
    (hval : env.validateResult.validity = true)
    (hr : Supported.is_rest dc.nos = false)
    (hs : Supported.is_scrape dc.nos = false) :
    Execute.response loc ty env
      = ([Action.validate],
         Except.ok (env.generalMsg, env.validateResult.status)) := by
  simp [Execute.response, hdc, hv, hval, hr, hs]

/-- C5 witness: the fall-through evaluated at a concrete unknown NOS. -/
theorem c5_witness :
    Execute.response "edge1" "ping"
      ⟨fun _ => some ⟨"192.0.2.7", 8080, "vyos", "cred2", none, "edge1"⟩,
        fun _ => some ⟨"u", "secret"⟩, true,
        ⟨true, "valid query", StatusCode.valid⟩, true,
        "query", "192.0.2.7", "vyos", "ping",
        HttpResult.success ⟨"ok", 200⟩,
        ⟨Except.ok (), Except.ok "out"⟩,
        ⟨none, Except.ok (), Except.ok (), Except.ok "", Except.ok (),
          Except.ok (), Except.ok (), Except.ok "", Except.ok (),
          Except.ok "out"⟩, "general"⟩
      = ([Action.validate], Except.ok ("general", StatusCode.valid)) :=
  c5_unknown_nos_fallthrough "edge1" "ping" _
    ⟨"192.0.2.7", 8080, "vyos", "cred2", none, "edge1"⟩ rfl rfl rfl rfl rfl

/-- C10: every configuration/collaborator name is resolved by runtime
attribute lookup; an absent name — the device location, the validator's
query-type handler, the credential reference, or the command builder's
query-type handler — raises `AttributeError` with no network or channel
action in the log, and that error is not converted by the executors' except
clause (which covers only the enumerated exception types): it propagates out
of `Execute.response`. -/
theorem c10_attribute_lookup_errors (loc ty : String) (env : ResponseEnv) :
    (env.devices loc = none →
      Execute.response loc ty env
        = ([], Except.error (PyError.attributeError "devices" loc))) ∧
    (∀ dc, env.devices loc = some dc → env.validateHasHandler = false →
      Execute.response loc ty env
        = ([], Except.error (PyError.attributeError "Validate" ty))) ∧
    (∀ dc, env.devices loc = some dc → env.validateHasHandler = true →
      env.validateResult.validity = true →
      Supported.is_rest dc.nos = true →
      env.credentials dc.credential = none →
      Execute.response loc ty env
        = ([Action.validate],
           Except.error
             (PyError.attributeError "credentials" dc.credential))) ∧
    (∀ dc cred, env.devices loc = some dc → env.validateHasHandler = true →
      env.validateResult.validity = true →
      Supported.is_rest dc.nos = true →
      env.credentials dc.credential = some cred →
      env.constructHasHandler = false →
      Execute.response loc ty env
        = ([Action.validate],
           Except.error (PyError.attributeError "Construct" ty))) ∧
    (∀ dc, env.devices loc = some dc → env.validateHasHandler = true →
      env.validateResult.validity = true →
      Supported.is_rest dc.nos = false →
      Supported.is_scrape dc.nos = true →
      env.credentials dc.credential = none →
      Execute.response loc ty env
        = ([Action.validate],
           Except.error
             (PyError.attributeError "credentials" dc.credential))) ∧
    (∀ obj attr g,
      restExceptClause g (Except.error (PyError.attributeError obj attr))
        = Except.error (PyError.attributeError obj attr)) := by
  refine ⟨fun h => ?_, fun dc h1 h2 => ?_, fun dc h1 h2 h3 h4 h5 => ?_,
    fun dc cred h1 h2 h3 h4 h5 h6 => ?_,
    fun dc h1 h2 h3 h4 h5 h6 => ?_, fun obj attr g => rfl⟩
  · simp [Execute.response, h]
  · simp [Execute.response, h1, h2]
  · simp [Execute.response, h1, h2, h3, h4, Rest.init, h5]
  · simp [Execute.response, h1, h2, h3, h4, Rest.init, h5, h6]
  · simp [Execute.response, h1, h2, h3, h4, h5, Netmiko.init, h6]

end Hyperglass

